import Mathlib

/-!
Shallow embedding of the length-prefixed framing layer of the
redis-scratch client/server pair (Go, `syscall`-level I/O).

Bytes are modelled as `Nat` values; a stream endpoint's incoming data is a
`List Nat`.  Partial delivery by the transport is modelled by a *schedule*:
a `List (Option Nat)` whose entries give, for each successive underlying
`syscall.Read` / `syscall.Write` call, either `none` (the syscall reports an
error) or `some k` (the syscall transfers `min k available` bytes, where
`available` is bounded by the space offered and, for reads, the bytes left
in the stream).  An exhausted schedule behaves cooperatively: each syscall
transfers everything offered/available, which is the best-case transport.

The Go code slices with `buf[offset:len]` where `len` is the *remaining*
count; the embedding reproduces this faithfully, including the runtime
panic Go raises when `offset > len` (slice bounds out of range) — modelled
by a distinguished `panic` outcome.
-/

namespace RedisScratch

/-- `kMaxMsg` from the source: maximum message body size. -/
def kMaxMsg : Nat := 4096

/-- Error outcomes produced by the embedded functions, one constructor per
`fmt.Errorf` site in the source. -/
inductive Err where
  /-- "Error reading from socket: %v" — underlying read reported an error. -/
  | readSock : Err
  /-- "EOF reading from socket" — underlying read returned 0 bytes. -/
  | eof : Err
  /-- "Error writing to socket: %v" — underlying write reported an error. -/
  | writeSock : Err
  /-- "write returned 0, unexpected". -/
  | writeZero : Err
  /-- server "message too long: %d". -/
  | tooLong (n : Nat) : Err
  /-- client "response too long: %d". -/
  | respTooLong (n : Nat) : Err
  /-- client-local "message too long" (request exceeds kMaxMsg). -/
  | msgTooLong : Err
  /-- client "write_all error: %v" wrapping a write_full error. -/
  | writeAll (e : Err) : Err
deriving DecidableEq, Repr

/-- Result of `read_full`: on success the final buffer contents plus the
unconsumed stream data and schedule; on error the error and the stream data
left unread; `panic` models the Go slice-bounds runtime panic. -/
inductive RRes where
  | ok (buf : List Nat) (data : List Nat) (chunks : List (Option Nat)) : RRes
  | err (e : Err) (data : List Nat) : RRes
  | panic : RRes
deriving DecidableEq, Repr

/-- Result of `write_full`: `sent` is the sequence of bytes actually handed
to the transport, in order. -/
inductive WRes where
  | ok (sent : List Nat) : WRes
  | err (e : Err) (sent : List Nat) : WRes
  | panic : WRes
deriving DecidableEq, Repr

/-- Overwrite `buf` starting at offset `off` with the bytes `bs`
(Go's in-place write into a slice of `buf`). -/
def writeAt (buf : List Nat) (off : Nat) (bs : List Nat) : List Nat :=
  buf.take off ++ bs ++ buf.drop (off + bs.length)

/-- The loop of Go `read_full(fd, buf, len)`.  `offset` and `rem` are the
source's `offset` and (mutated) `len` variables; each iteration issues
`syscall.Read(fd, buf[offset:rem])`.  The slice expression panics when
`offset > rem` or `rem > len(buf)`; otherwise the read returns
`n = min (schedule cap) (min (rem - offset) (bytes left in stream))`,
`n = 0` is treated as EOF, and the loop continues with `offset+n`, `rem-n`. -/
def read_full_loop (buf : List Nat) (offset rem : Nat) (data : List Nat)
    (chunks : List (Option Nat)) : RRes :=
  if _hrem : rem = 0 then .ok buf data chunks
  else if _hlen : rem > buf.length then .panic
  else if _hoff : offset > rem then .panic
  else
    let offered := rem - offset
    let res : Option Nat :=
      match chunks with
      | [] => some offered
      | o :: _ => o
    match res with
    | none => .err .readSock data
    | some c =>
      let n := min c (min offered data.length)
      if _hn : n = 0 then .err .eof data
      else
        read_full_loop (writeAt buf offset (data.take n)) (offset + n) (rem - n)
          (data.drop n) chunks.tail
termination_by rem
decreasing_by omega

/-- Go `read_full(fd, buf, len)` with `cnt` the requested byte count. -/
def read_full (buf : List Nat) (cnt : Nat) (data : List Nat)
    (chunks : List (Option Nat)) : RRes :=
  read_full_loop buf 0 cnt data chunks

/-- The loop of Go `write_full(fd, buf)`.  `offset` and `total` are the
source's variables; each iteration issues `syscall.Write(fd, buf[offset:total])`,
which panics when `offset > total`, else writes
`n = min (schedule cap) (total - offset)` bytes of that slice;
`n = 0` yields the "write returned 0, unexpected" error. -/
def write_full_loop (buf : List Nat) (offset total : Nat) (sent : List Nat)
    (sched : List (Option Nat)) : WRes :=
  if _htot : total = 0 then .ok sent
  else if _hoff : offset > total then .panic
  else
    let offered := total - offset
    let slice := (buf.drop offset).take offered
    let res : Option Nat :=
      match sched with
      | [] => some offered
      | o :: _ => o
    match res with
    | none => .err .writeSock sent
    | some k =>
      let n := min k offered
      if _hn : n = 0 then .err .writeZero sent
      else write_full_loop buf (offset + n) (total - n) (sent ++ slice.take n) sched.tail
termination_by total
decreasing_by omega

/-- Go `write_full(fd, buf)`: `total` starts at `len(buf)`, `offset` at 0. -/
def write_full (buf : List Nat) (sched : List (Option Nat)) : WRes :=
  write_full_loop buf 0 buf.length [] sched

/-- `binary.LittleEndian.PutUint32`: the 4 little-endian bytes of `n`. -/
def toLE4 (n : Nat) : List Nat :=
  [n % 256, n / 256 % 256, n / 65536 % 256, n / 16777216 % 256]

/-- `binary.LittleEndian.Uint32` on 4 bytes. -/
def fromLE4 (b0 b1 b2 b3 : Nat) : Nat :=
  b0 + 256 * b1 + 65536 * b2 + 16777216 * b3

/-- The fixed server reply body, `[]byte("Hello world!!")`. -/
def hello : List Nat :=
  [72, 101, 108, 108, 111, 32, 119, 111, 114, 108, 100, 33, 33]

/-- Frame construction as built by `query` / `one_request`'s reply code:
4-byte little-endian length followed by the body. -/
def encodeFrame (m : List Nat) : List Nat := toLE4 m.length ++ m

/-- `binary.LittleEndian.Uint32(rbuf[:4])`: decode the 4-byte header at the
front of a buffer. -/
def decodeLen (buf : List Nat) : Nat :=
  fromLE4 (buf.getD 0 0) (buf.getD 1 0) (buf.getD 2 0) (buf.getD 3 0)

/-- Result of `one_request`: on success the decoded request body, the reply
bytes handed to the transport, and the unconsumed incoming data; on error the
error and the incoming data left unread. -/
inductive SRes where
  | ok (body : List Nat) (sent : List Nat) (rest : List Nat) : SRes
  | err (e : Err) (rest : List Nat) : SRes
  | panic : SRes
deriving DecidableEq, Repr

/-- Go `one_request(connfd)`: read the 4-byte header into
`rbuf := make([]byte, 4+kMaxMsg)`, decode the little-endian length, reject
lengths above `kMaxMsg`, read the body into `rbuf[4:4+length]`, then frame
and send the fixed reply `"Hello world!!"`.  `data`/`chunks` model the
endpoint's incoming bytes and read schedule, `wsched` the write schedule. -/
def one_request (data : List Nat) (chunks : List (Option Nat))
    (wsched : List (Option Nat)) : SRes :=
  match read_full (List.replicate (4 + kMaxMsg) 0) 4 data chunks with
  | .panic => .panic
  | .err e d => .err e d
  | .ok rbuf1 d1 c1 =>
    if decodeLen rbuf1 > kMaxMsg then .err (.tooLong (decodeLen rbuf1)) d1
    else
      match read_full ((rbuf1.drop 4).take (decodeLen rbuf1)) (decodeLen rbuf1) d1 c1 with
      | .panic => .panic
      | .err e d => .err e d
      | .ok body d2 _ =>
        match write_full (encodeFrame hello) wsched with
        | .panic => .panic
        | .err e _ => .err e d2
        | .ok sent => .ok body sent d2

/-- Result of `query`: on success the decoded reply body, the request bytes
handed to the transport, and the unconsumed response data; on error the error
plus bytes sent so far and response data left unread. -/
inductive CRes where
  | ok (reply : List Nat) (sent : List Nat) (rest : List Nat) : CRes
  | err (e : Err) (sent : List Nat) (rest : List Nat) : CRes
  | panic : CRes
deriving DecidableEq, Repr

/-- Go `query(fd, text)`: reject texts longer than `kMaxMsg` before any I/O,
else frame and send the request, read the 4-byte response header into
`rbuf[:4]`, reject reply lengths above `kMaxMsg`, and read the reply body
into `rbuf[4:4+replyLen]`.  `wsched` models the write schedule, `rdata` /
`rchunks` the endpoint's response bytes and read schedule. -/
def query (text : List Nat) (wsched : List (Option Nat)) (rdata : List Nat)
    (rchunks : List (Option Nat)) : CRes :=
  if text.length > kMaxMsg then .err .msgTooLong [] rdata
  else
    match write_full (encodeFrame text) wsched with
    | .panic => .panic
    | .err e s => .err (.writeAll e) s rdata
    | .ok sent =>
      match read_full (List.replicate 4 0) 4 rdata rchunks with
      | .panic => .panic
      | .err e d => .err e sent d
      | .ok hbuf d1 c1 =>
        if decodeLen hbuf > kMaxMsg then .err (.respTooLong (decodeLen hbuf)) sent d1
        else
          match read_full (List.replicate (decodeLen hbuf) 0) (decodeLen hbuf) d1 c1 with
          | .panic => .panic
          | .err e d => .err e sent d
          | .ok body d2 _ => .ok body sent d2

/-- Observable endpoint lifecycle events. -/
inductive Ev where
  | accept (fd : Nat)
  | exchange (fd : Nat)
  | close (fd : Nat)
deriving DecidableEq, Repr

/-- One iteration of the server accept loop (server `main`): accept a
connection, run `one_request` (its result is ignored), then
`syscall.Close(connfd)` unconditionally.  A Go runtime panic inside
`one_request` would crash the process before the close. -/
def acceptIter (connfd : Nat) (data : List Nat)
    (chunks wsched : List (Option Nat)) : List Ev :=
  match one_request data chunks wsched with
  | .panic => [.accept connfd, .exchange connfd]
  | _ => [.accept connfd, .exchange connfd, .close connfd]

/-- The client session after a successful connect (client `main`):
`query(fd, "PING")` with its result ignored, then `syscall.Close(fd)`. -/
def clientSession (fd : Nat) (text : List Nat) (wsched : List (Option Nat))
    (rdata : List Nat) (rchunks : List (Option Nat)) : List Ev :=
  match query text wsched rdata rchunks with
  | .panic => [.exchange fd]
  | _ => [.exchange fd, .close fd]

/-! ### Helper lemmas about the transfer loops -/

/-- A request for 0 bytes succeeds at once without touching the stream. -/
theorem read_full_zero (buf data : List Nat) (chunks : List (Option Nat)) :
    read_full buf 0 data chunks = .ok buf data chunks := by
  unfold read_full
  rw [read_full_loop]
  simp

/-- With an exhausted (cooperative) schedule and enough stream data, the
first underlying read supplies everything: the first `cnt` buffer bytes are
replaced by the first `cnt` stream bytes. -/
theorem read_full_coop (buf : List Nat) (cnt : Nat) (data : List Nat)
    (h1 : cnt ≤ buf.length) (h2 : cnt ≤ data.length) :
    read_full buf cnt data [] =
      .ok (data.take cnt ++ buf.drop cnt) (data.drop cnt) [] := by
  unfold read_full
  rw [read_full_loop]
  rcases Nat.eq_zero_or_pos cnt with hc | hc
  · subst hc; simp
  · have hne : ¬ cnt = 0 := by omega
    have hgt : ¬ cnt > buf.length := by omega
    have hnot0 : ¬ (0 > cnt) := by omega
    simp only [hne, hgt, hnot0, dif_neg, not_false_iff, Nat.sub_zero]
    have hmin : min cnt (min cnt data.length) = cnt := by omega
    rw [hmin]
    simp only [hne, dif_neg, not_false_iff]
    rw [read_full_loop]
    have h3 : cnt ⊓ data.length = cnt := by omega
    simp [writeAt, h3]

/-- A positive read request against an endpoint with no data left fails with
the EOF error. -/
theorem read_full_eof (buf : List Nat) (cnt : Nat)
    (h1 : 1 ≤ cnt) (h2 : cnt ≤ buf.length) :
    read_full buf cnt [] [] = .err .eof [] := by
  unfold read_full
  rw [read_full_loop]
  have hne : ¬ cnt = 0 := by omega
  have hgt : ¬ cnt > buf.length := by omega
  have hnot0 : ¬ (0 > cnt) := by omega
  simp [hne, hgt, hnot0]

/-- With an exhausted (cooperative) schedule the first underlying write
accepts the whole buffer. -/
theorem write_full_all (buf : List Nat) : write_full buf [] = .ok buf := by
  unfold write_full
  rw [write_full_loop]
  rcases Nat.eq_zero_or_pos buf.length with h | h
  · simp [h, List.length_eq_zero.mp h]
  · have hne : ¬ buf.length = 0 := by omega
    have hnot0 : ¬ (0 > buf.length) := by omega
    simp only [hne, hnot0, dif_neg, not_false_iff, Nat.sub_zero]
    have hmin : min buf.length buf.length = buf.length := by omega
    rw [hmin]
    simp only [hne, dif_neg, not_false_iff]
    rw [write_full_loop]
    simp

/-- Little-endian 32-bit encode/decode round-trip at the head of a stream. -/
theorem decodeLen_toLE4 (n : Nat) (rest : List Nat) (h : n < 4294967296) :
    decodeLen (toLE4 n ++ rest) = n := by
  simp only [decodeLen, toLE4, fromLE4, List.cons_append, List.nil_append,
    List.getD_cons_zero, List.getD_cons_succ]
  omega

/-- Cooperative round-trip of one_request. -/
theorem one_request_coop (m : List Nat) (h : m.length ≤ kMaxMsg) :
    one_request (encodeFrame m) [] [] = .ok m (encodeFrame hello) [] := by
  have hk : kMaxMsg = 4096 := rfl
  have hL : m.length < 4294967296 := by omega
  have hlen4 : (toLE4 m.length).length = 4 := by simp [toLE4]
  have htake : (encodeFrame m).take 4 = toLE4 m.length := by
    rw [encodeFrame, ← hlen4]; exact List.take_left _ _
  have hdrop : (encodeFrame m).drop 4 = m := by
    rw [encodeFrame, ← hlen4]; exact List.drop_left _ _
  have hblen : (List.replicate (4 + kMaxMsg) (0 : Nat)).length = 4 + kMaxMsg :=
    List.length_replicate _ _
  have helen : (encodeFrame m).length = 4 + m.length := by
    rw [encodeFrame, List.length_append, hlen4]
  have hdr := read_full_coop (List.replicate (4 + kMaxMsg) 0) 4 (encodeFrame m)
      (by omega) (by omega)
  unfold one_request
  rw [hdr]
  simp only [htake, hdrop, List.drop_replicate]
  rw [decodeLen_toLE4 _ _ hL]
  have hnotgt : ¬ (m.length > kMaxMsg) := by omega
  simp only [hnotgt, if_neg, not_false_iff]
  have hdl : List.drop 4 (toLE4 m.length ++ List.replicate (4 + kMaxMsg - 4) 0) =
      List.replicate (4 + kMaxMsg - 4) (0 : Nat) := by
    rw [← hlen4]; exact List.drop_left _ _
  rw [hdl]
  have htr : List.take m.length (List.replicate (4 + kMaxMsg - 4) (0 : Nat)) =
      List.replicate m.length 0 := by
    rw [List.take_replicate]; congr 1; omega
  rw [htr]
  have hbody := read_full_coop (List.replicate m.length 0) m.length m (by simp) (le_refl _)
  rw [hbody]
  simp only [List.take_length, List.drop_length, List.drop_replicate, Nat.sub_self,
    List.replicate_zero, List.append_nil]
  rw [write_full_all]


/-- decodeLen of a bare header. -/
theorem decodeLen_toLE4_nil (n : Nat) (h : n < 4294967296) : decodeLen (toLE4 n) = n := by
  have h2 := decodeLen_toLE4 n [] h
  simpa using h2

/-- Oversized declared length: one_request rejects after the header,
leaving the rest of the stream unread. -/
theorem one_request_too_long (L : Nat) (rest : List Nat) (ws : List (Option Nat))
    (h1 : kMaxMsg < L) (h2 : L < 4294967296) :
    one_request (toLE4 L ++ rest) [] ws = .err (.tooLong L) rest := by
  have hk : kMaxMsg = 4096 := rfl
  have hlen4 : (toLE4 L).length = 4 := by simp [toLE4]
  have htake : (toLE4 L ++ rest).take 4 = toLE4 L := by
    rw [← hlen4]; exact List.take_left _ _
  have hdrop : (toLE4 L ++ rest).drop 4 = rest := by
    rw [← hlen4]; exact List.drop_left _ _
  have hblen : (List.replicate (4 + kMaxMsg) (0 : Nat)).length = 4 + kMaxMsg :=
    List.length_replicate _ _
  have helen : (toLE4 L ++ rest).length = 4 + rest.length := by
    rw [List.length_append, hlen4]
  have hdr := read_full_coop (List.replicate (4 + kMaxMsg) 0) 4 (toLE4 L ++ rest)
      (by omega) (by omega)
  unfold one_request
  rw [hdr]
  simp only [htake, hdrop, List.drop_replicate]
  rw [decodeLen_toLE4 _ _ h2]
  simp [h1]

/-- Cooperative client exchange: the request is framed and sent, the framed
reply is decoded back. -/
theorem query_coop (text r : List Nat) (ht : text.length ≤ kMaxMsg)
    (hr : r.length ≤ kMaxMsg) :
    query text [] (encodeFrame r) [] = .ok r (encodeFrame text) [] := by
  have hk : kMaxMsg = 4096 := rfl
  have hnot : ¬ (text.length > kMaxMsg) := by omega
  have hlen4 : (toLE4 r.length).length = 4 := by simp [toLE4]
  have htake : (encodeFrame r).take 4 = toLE4 r.length := by
    rw [encodeFrame, ← hlen4]; exact List.take_left _ _
  have hdrop : (encodeFrame r).drop 4 = r := by
    rw [encodeFrame, ← hlen4]; exact List.drop_left _ _
  have helen : (encodeFrame r).length = 4 + r.length := by
    rw [encodeFrame, List.length_append, hlen4]
  have hblen : (List.replicate 4 (0 : Nat)).length = 4 := List.length_replicate _ _
  unfold query
  simp only [hnot, if_neg, not_false_iff]
  rw [write_full_all]
  have hdr := read_full_coop (List.replicate 4 0) 4 (encodeFrame r) (by omega) (by omega)
  rw [hdr]
  simp only [htake, hdrop, List.drop_replicate, Nat.sub_self, List.replicate_zero,
    List.append_nil]
  rw [decodeLen_toLE4_nil _ (by omega)]
  have hnot2 : ¬ (r.length > kMaxMsg) := by omega
  simp only [hnot2, if_neg, not_false_iff]
  have hbody := read_full_coop (List.replicate r.length 0) r.length r (by simp) (le_refl _)
  rw [hbody]
  simp only [List.take_length, List.drop_length, List.drop_replicate, Nat.sub_self,
    List.replicate_zero, List.append_nil]

/-- Oversized declared reply length: query rejects after the header,
leaving the rest of the response stream unread. -/
theorem query_resp_too_long (text : List Nat) (L : Nat) (rest : List Nat)
    (ht : text.length ≤ kMaxMsg) (h1 : kMaxMsg < L) (h2 : L < 4294967296) :
    query text [] (toLE4 L ++ rest) [] = .err (.respTooLong L) (encodeFrame text) rest := by
  have hk : kMaxMsg = 4096 := rfl
  have hnot : ¬ (text.length > kMaxMsg) := by omega
  have hlen4 : (toLE4 L).length = 4 := by simp [toLE4]
  have htake : (toLE4 L ++ rest).take 4 = toLE4 L := by
    rw [← hlen4]; exact List.take_left _ _
  have hdrop : (toLE4 L ++ rest).drop 4 = rest := by
    rw [← hlen4]; exact List.drop_left _ _
  have helen : (toLE4 L ++ rest).length = 4 + rest.length := by
    rw [List.length_append, hlen4]
  have hblen : (List.replicate 4 (0 : Nat)).length = 4 := List.length_replicate _ _
  unfold query
  simp only [hnot, if_neg, not_false_iff]
  rw [write_full_all]
  have hdr := read_full_coop (List.replicate 4 0) 4 (toLE4 L ++ rest) (by omega) (by omega)
  rw [hdr]
  simp only [htake, hdrop, List.drop_replicate, Nat.sub_self, List.replicate_zero,
    List.append_nil]
  rw [decodeLen_toLE4_nil _ (by omega)]
  simp [h1]


/-- A frame consisting of only a header declaring a positive length, with the
stream then exhausted: the body read hits EOF. -/
theorem one_request_header_only (L : Nat) (ws : List (Option Nat))
    (h1 : 1 ≤ L) (h2 : L ≤ kMaxMsg) :
    one_request (toLE4 L) [] ws = .err .eof [] := by
  have hk : kMaxMsg = 4096 := rfl
  have hlen4 : (toLE4 L).length = 4 := by simp [toLE4]
  have hblen : (List.replicate (4 + kMaxMsg) (0 : Nat)).length = 4 + kMaxMsg :=
    List.length_replicate _ _
  have hdr := read_full_coop (List.replicate (4 + kMaxMsg) 0) 4 (toLE4 L)
      (by omega) (by omega)
  unfold one_request
  rw [hdr]
  have htake : (toLE4 L).take 4 = toLE4 L := by
    rw [← hlen4]; exact List.take_length _
  have hdrop : (toLE4 L).drop 4 = [] := by
    rw [← hlen4]; exact List.drop_length _
  simp only [htake, hdrop, List.drop_replicate]
  rw [decodeLen_toLE4 _ _ (by omega)]
  have hnotgt : ¬ (L > kMaxMsg) := by omega
  simp only [hnotgt, if_neg, not_false_iff]
  have hdl : List.drop 4 (toLE4 L ++ List.replicate (4 + kMaxMsg - 4) 0) =
      List.replicate (4 + kMaxMsg - 4) (0 : Nat) := by
    rw [← hlen4]; exact List.drop_left _ _
  rw [hdl]
  have htr : List.take L (List.replicate (4 + kMaxMsg - 4) (0 : Nat)) =
      List.replicate L 0 := by
    rw [List.take_replicate]; congr 1; omega
  rw [htr]
  rw [read_full_eof (List.replicate L 0) L h1 (by simp)]

/-- A transport that delivers 1-byte chunks against the slicing bug: proved
for any destination buffer of length at least 4. -/
theorem hdr_read_one_byte (buf : List Nat) (h : 4 ≤ buf.length) :
    read_full buf 4 [4, 0, 0, 0, 80, 73, 78, 71] [some 1, some 1, some 1] =
      .err .eof [0, 0, 80, 73, 78, 71] := by
  have e1 : (writeAt buf 0 [4]).length = buf.length := by
    simp [writeAt]; omega
  have e2 : (writeAt (writeAt buf 0 [4]) 1 [0]).length = buf.length := by
    simp [writeAt]; omega
  unfold read_full
  rw [read_full_loop]
  simp only [Nat.not_lt.mpr h]
  norm_num
  rw [read_full_loop]
  simp only [e1, Nat.not_lt.mpr (show 3 ≤ buf.length by omega)]
  norm_num
  rw [read_full_loop]
  simp only [e2, Nat.not_lt.mpr (show 2 ≤ buf.length by omega)]
  norm_num


/-! ### Claim theorems -/

/-- C1: for every message `m` with `0 ≤ len(m) ≤ 4096`, encoding `m` as a
frame (4-byte unsigned little-endian length followed by the message bytes, as
built by `query` / `one_request`'s reply construction) and then decoding that
frame from the resulting byte stream as `one_request` does (read 4 bytes,
interpret as little-endian uint32 length, check against 4096, read the body)
yields exactly `m`. -/
theorem frame_round_trip (m : List Nat) (h : m.length ≤ kMaxMsg) :
    one_request (encodeFrame m) [] [] = .ok m (encodeFrame hello) [] :=
  one_request_coop m h

/-- Witness for C1 at the concrete message "PING". -/
theorem frame_round_trip_witness :
    one_request (encodeFrame [80, 73, 78, 71]) [] [] =
      .ok [80, 73, 78, 71] (encodeFrame hello) [] :=
  frame_round_trip [80, 73, 78, 71] (by decide)

/-- C2 (failing run, refuting the claim): with the transport delivering
1-byte chunks, `read_full` does NOT accumulate the requested bytes.  Because
the code slices `buf[offset:len]` with `len` the remaining count, the read
window shrinks from both ends; after two 1-byte reads the window is empty,
the next underlying read returns 0, and `read_full` reports the EOF error
having stored only 2 of the 4 requested bytes.  `one_request` on the frame
for "PING" fails the same way instead of round-tripping. -/
theorem one_byte_chunks_eof_bug :
    read_full (List.replicate 4 0) 4 [4, 0, 0, 0] [some 1, some 1, some 1] =
      .err .eof [0, 0]
  ∧ one_request [4, 0, 0, 0, 80, 73, 78, 71] [some 1, some 1, some 1] [] =
      .err .eof [0, 0, 80, 73, 78, 71] := by
  constructor
  · simp [read_full, read_full_loop, writeAt]
  · unfold one_request
    rw [hdr_read_one_byte _ (by simp)]

/-- C3 (failing run, refuting the claim): a first underlying write that
accepts 3 of the 4 offered bytes leads `write_full` to evaluate `buf[3:1]`
(offset 3, remaining total 1), a slice-bounds panic, instead of offering the
remaining byte. -/
theorem write_full_partial_panic_bug :
    write_full [1, 2, 3, 4] [some 3] = .panic := by
  simp [write_full, write_full_loop]

/-- C4: a declared length of exactly 4096 is accepted (the body is read and
the exchange completes), while any declared length above 4096 is rejected
with the message-too-long / response-too-long error, with the body bytes left
unread on the stream; both for the server decode in `one_request` and for the
client response decode in `query`. -/
theorem boundary_length_check :
    (∀ body : List Nat, body.length = kMaxMsg →
      one_request (toLE4 kMaxMsg ++ body) [] [] = .ok body (encodeFrame hello) [])
  ∧ (∀ (L : Nat) (rest : List Nat) (ws : List (Option Nat)),
      kMaxMsg < L → L < 4294967296 →
      one_request (toLE4 L ++ rest) [] ws = .err (.tooLong L) rest)
  ∧ (∀ text body : List Nat, text.length ≤ kMaxMsg → body.length = kMaxMsg →
      query text [] (toLE4 kMaxMsg ++ body) [] = .ok body (encodeFrame text) [])
  ∧ (∀ (text : List Nat) (L : Nat) (rest : List Nat),
      text.length ≤ kMaxMsg → kMaxMsg < L → L < 4294967296 →
      query text [] (toLE4 L ++ rest) [] = .err (.respTooLong L) (encodeFrame text) rest) := by
  refine ⟨?_, ?_, ?_, ?_⟩
  · intro body hb
    have h := one_request_coop body (le_of_eq hb)
    have he : encodeFrame body = toLE4 kMaxMsg ++ body := by rw [encodeFrame, hb]
    rwa [he] at h
  · intro L rest ws h1 h2
    exact one_request_too_long L rest ws h1 h2
  · intro text body ht hb
    have h := query_coop text body ht (le_of_eq hb)
    have he : encodeFrame body = toLE4 kMaxMsg ++ body := by rw [encodeFrame, hb]
    rwa [he] at h
  · intro text L rest ht h1 h2
    exact query_resp_too_long text L rest ht h1 h2

/-- Witness for C4 at declared lengths 4096 and 4097. -/
theorem boundary_length_check_witness :
    one_request (toLE4 kMaxMsg ++ List.replicate 4096 7) [] [] =
      .ok (List.replicate 4096 7) (encodeFrame hello) []
  ∧ one_request (toLE4 4097 ++ [9]) [] [] = .err (.tooLong 4097) [9]
  ∧ query [80] [] (toLE4 kMaxMsg ++ List.replicate 4096 7) [] =
      .ok (List.replicate 4096 7) (encodeFrame [80]) []
  ∧ query [80] [] (toLE4 4097 ++ [9]) [] =
      .err (.respTooLong 4097) (encodeFrame [80]) [9] := by
  obtain ⟨h1, h2, h3, h4⟩ := boundary_length_check
  refine ⟨h1 _ (by rw [List.length_replicate]; rfl), ?_,
    h3 [80] _ (by norm_num [kMaxMsg]) (by rw [List.length_replicate]; rfl), ?_⟩
  · exact h2 4097 [9] [] (by norm_num [kMaxMsg]) (by norm_num)
  · exact h4 [80] 4097 [9] (by norm_num [kMaxMsg]) (by norm_num [kMaxMsg]) (by norm_num)

/-- C5: if the peer closes the stream after delivering only a 4-byte header
declaring a positive length and no body bytes, the body read's first
underlying read returns 0, `read_full` reports its EOF error, and
`one_request` propagates it. -/
theorem premature_close_eof (L : Nat) (ws : List (Option Nat))
    (h1 : 1 ≤ L) (h2 : L ≤ kMaxMsg) :
    one_request (toLE4 L) [] ws = .err .eof [] :=
  one_request_header_only L ws h1 h2

/-- Witness for C5 at declared length 10. -/
theorem premature_close_eof_witness :
    one_request (toLE4 10) [] [] = .err .eof [] :=
  premature_close_eof 10 [] (by norm_num) (by norm_num [kMaxMsg])

/-- C6: a request text longer than 4096 makes `query` fail with the local
message-too-long error before any I/O: nothing is written and the response
stream is untouched. -/
theorem client_rejects_oversized_before_io (text : List Nat)
    (ws : List (Option Nat)) (rdata : List Nat) (rchunks : List (Option Nat))
    (h : kMaxMsg < text.length) :
    query text ws rdata rchunks = .err .msgTooLong [] rdata := by
  unfold query
  simp [h]

/-- Witness for C6 at a 4097-byte request. -/
theorem client_rejects_oversized_before_io_witness :
    query (List.replicate 4097 0) [] [] [] = .err .msgTooLong [] [] :=
  client_rejects_oversized_before_io (List.replicate 4097 0) [] [] []
    (by rw [List.length_replicate]; norm_num [kMaxMsg])

/-- C7: a frame with declared length 0 is valid: decoding returns the empty
message, and `read_full` with requested count 0 is a no-op that issues no
underlying read. -/
theorem zero_length_frame_ok :
    (∀ (buf data : List Nat) (chunks : List (Option Nat)),
      read_full buf 0 data chunks = .ok buf data chunks)
  ∧ one_request (encodeFrame []) [] [] = .ok [] (encodeFrame hello) [] :=
  ⟨read_full_zero, one_request_coop [] (by decide)⟩

/-- C8: the wire bytes of the client's "PING" request frame are exactly
`04 00 00 00 50 49 4E 47`; the server decodes the body as "PING" and replies
with the framed 13-byte body "Hello world!!", which the client decodes back
exactly. -/
theorem ping_end_to_end :
    encodeFrame [80, 73, 78, 71] = [4, 0, 0, 0, 80, 73, 78, 71]
  ∧ one_request [4, 0, 0, 0, 80, 73, 78, 71] [] [] =
      .ok [80, 73, 78, 71] (encodeFrame hello) []
  ∧ query [80, 73, 78, 71] [] (encodeFrame hello) [] =
      .ok hello [4, 0, 0, 0, 80, 73, 78, 71] []
  ∧ hello.length = 13 := by
  have he : encodeFrame [80, 73, 78, 71] = [4, 0, 0, 0, 80, 73, 78, 71] := by decide
  refine ⟨he, ?_, ?_, by decide⟩
  · have h := one_request_coop [80, 73, 78, 71] (by decide)
    rwa [he] at h
  · have h := query_coop [80, 73, 78, 71] hello (by decide) (by decide)
    rwa [he] at h

/-- C9: whenever `one_request` returns (success or error), the accept-loop
iteration that invoked it runs exactly one exchange on the accepted endpoint
and closes it exactly once; likewise the client session closes its endpoint
once whenever `query` returns. -/
theorem endpoint_closed_once (connfd fd : Nat) (data : List Nat)
    (chunks wsched : List (Option Nat)) (text : List Nat)
    (cw : List (Option Nat)) (rdata : List Nat) (rchunks : List (Option Nat))
    (hs : one_request data chunks wsched ≠ .panic)
    (hc : query text cw rdata rchunks ≠ .panic) :
    (acceptIter connfd data chunks wsched).count (.close connfd) = 1
  ∧ (acceptIter connfd data chunks wsched).count (.exchange connfd) = 1
  ∧ (clientSession fd text cw rdata rchunks).count (.close fd) = 1 := by
  refine ⟨?_, ?_, ?_⟩
  · cases hres : one_request data chunks wsched with
    | panic => exact absurd hres hs
    | ok b s r => unfold acceptIter; rw [hres]; simp [List.count_cons]
    | err e r => unfold acceptIter; rw [hres]; simp [List.count_cons]
  · cases hres : one_request data chunks wsched with
    | panic => exact absurd hres hs
    | ok b s r => unfold acceptIter; rw [hres]; simp [List.count_cons]
    | err e r => unfold acceptIter; rw [hres]; simp [List.count_cons]
  · cases hres : query text cw rdata rchunks with
    | panic => exact absurd hres hc
    | ok b s r => unfold clientSession; rw [hres]; simp [List.count_cons]
    | err e s r => unfold clientSession; rw [hres]; simp [List.count_cons]

/-- Witness for C9 on a concrete non-panicking exchange. -/
theorem endpoint_closed_once_witness :
    (acceptIter 7 (encodeFrame []) [] []).count (.close 7) = 1
  ∧ (acceptIter 7 (encodeFrame []) [] []).count (.exchange 7) = 1
  ∧ (clientSession 3 [80] [] (encodeFrame hello) []).count (.close 3) = 1 :=
  endpoint_closed_once 7 3 (encodeFrame []) [] [] [80] [] (encodeFrame hello) []
    (by rw [one_request_coop [] (by decide)]; simp)
    (by rw [query_coop [80] hello (by decide) (by decide)]; simp)

/-- C10 (failing runs, refuting the claim): totality fails.  A first
underlying read that returns 3 of 4 requested bytes makes `read_full`
evaluate `buf[3:1]` — a slice-bounds panic; a first underlying write that
accepts 4 of 5 offered bytes makes `write_full` evaluate `buf[4:1]` — the
same panic. -/
theorem read_write_slice_panic_bug :
    read_full (List.replicate 4 0) 4 [9, 9, 9, 9] [some 3] = .panic
  ∧ write_full [5, 6, 7, 8, 9] [some 4] = .panic := by
  constructor
  · simp [read_full, read_full_loop, writeAt]
  · simp [write_full, write_full_loop]

end RedisScratch
